import Mathlib

/-!
Shallow embedding of the dataset-reader and predictor adapters of the
`allenNLP_papers` repository, together with theorems settling the frozen
claims about them.

Source files embedded:
  - `src/papers/dataset_readers/scopus_papers.py`
      (`ScopusDatasetReader`, `ScopusAbstractDatasetReader`)
  - `src/papers/dataset_readers/semantic_scholar_papers.py`
      (`SemanticScholarDatasetReader`)
  - `src/papers/predictors/paper_classifier_predictor.py`
      (`PaperClassifierPredictor`)

Modelling conventions:
  - Tokenization is external (allennlp `Tokenizer.tokenize`); it is modelled
    as an arbitrary total function `String → List String`.
  - An allennlp `Instance` is a dict of named fields; it is modelled as an
    ordered association list `List (String × Field)` (Python dicts preserve
    insertion order, and the readers never insert a key twice).
  - Fallible Python code is modelled with `Except PyError`; the error
    constructors record which concrete Python exception is raised and from
    which site.
-/

set_option autoImplicit false

namespace Papers

/-- Python exceptions that the embedded code can raise, tagged by their site:
`valueErrorUnpack` is the `ValueError` of a failed tuple destructuring
(wrong number of values), `valueErrorInt` is the `ValueError` of a failed
`int(...)` coercion, `keyError k` is the `KeyError` of a missing dict key
`k`, and `typeError` is the `TypeError` of a keyword argument the callee
does not accept. -/
inductive PyError where
  | valueErrorUnpack
  | valueErrorInt
  | keyError (key : String)
  | typeError
deriving DecidableEq

/-- Field objects of the allennlp data model as used by this repository:
`textField toks` is `TextField(tokens, indexers)` keeping only the token
list (the indexer configuration never influences the field mapping),
`labelFieldStr s` is `LabelField(s)` on a raw string, `labelFieldInt i` is
`LabelField(i, skip_indexing=True)`, and `listField fs` is `ListField(fs)`. -/
inductive Field where
  | textField (tokens : List String)
  | labelFieldStr (label : String)
  | labelFieldInt (label : Int)
  | listField (fields : List Field)

/-- An allennlp `Instance`: the ordered dict of named fields it is built
from (`Instance(fields)`). -/
abbrev Inst := List (String × Field)

/-- Dict membership test: `k in fields`. -/
def hasField (inst : Inst) (k : String) : Bool :=
  match inst with
  | [] => false
  | (k2, _) :: rest => if k2 = k then true else hasField rest k

/-- Dict lookup `fields[k]` as an `Option`. -/
def getField (inst : Inst) (k : String) : Option Field :=
  match inst with
  | [] => none
  | (k2, v) :: rest => if k2 = k then some v else getField rest k

/-- The ordered key set of the fields dict. -/
def fieldNames (inst : Inst) : List String :=
  inst.map Prod.fst

/-- Values the label-mapping logic is applied to: CSV cells arrive as
strings (`PyVal.str`), while the default `[0, 0, 0, 0]` substituted for an
empty label sequence consists of Python ints (`PyVal.int`). -/
inductive PyVal where
  | str (s : String)
  | int (i : Int)
deriving DecidableEq

/-- Folds a run of decimal digit characters into a number; any non-digit
character makes the parse fail. -/
def parseDigitsAux : List Char → Nat → Option Nat
  | [], acc => some acc
  | c :: cs, acc =>
      if c.isDigit then parseDigitsAux cs (acc * 10 + (c.toNat - 48)) else none

/-- Python `int(s)` on a string: surrounding whitespace is stripped, then an
optional sign followed by a nonempty run of decimal digits is accepted
(digit-group underscores are not modelled; no claim depends on them).
Returns `none` exactly when Python raises `ValueError`. -/
def pyIntOfString (s : String) : Option Int :=
  let core := ((s.data.dropWhile Char.isWhitespace).reverse.dropWhile
      Char.isWhitespace).reverse
  match core with
  | [] => none
  | '-' :: cs =>
      match cs with
      | [] => none
      | _ => (parseDigitsAux cs 0).map (fun n => -(n : Int))
  | '+' :: cs =>
      match cs with
      | [] => none
      | _ => (parseDigitsAux cs 0).map (fun n => (n : Int))
  | cs => (parseDigitsAux cs 0).map (fun n => (n : Int))

/-- Python `int(v)` on the values the readers feed it: an int passes
through unchanged, a string is parsed as in `pyIntOfString`. -/
def pyInt : PyVal → Except PyError Int
  | .int i => .ok i
  | .str s =>
      match pyIntOfString s with
      | some i => .ok i
      | none => .error .valueErrorInt

/-- The default label sequence `[0, 0, 0, 0]` substituted when the `labels`
argument is falsy (`scopus_papers.py` lines 74-75 and 149-150). -/
def defaultLabels : List PyVal :=
  [.int 0, .int 0, .int 0, .int 0]

/-- The shared label-mapping logic, identical in
`ScopusDatasetReader.text_to_instance` (`scopus_papers.py` lines 74-85) and
`ScopusAbstractDatasetReader.text_to_instance` (lines 149-160): `if not
labels: labels = [0, 0, 0, 0]` (an omitted argument arrives as `None`, so
`none` and `some []` are both falsy), then the positional destructuring
`health_sciences, life_sciences, physical_sciences, social_sciences =
labels`, then `ListField` of the four `int(...)` coercions with
`skip_indexing=True`, evaluated left to right. -/
def mapLabels (labels : Option (List PyVal)) : Except PyError Field :=
  let vals : List PyVal :=
    match labels with
    | none => defaultLabels
    | some l => if l = [] then defaultLabels else l
  match vals with
  | [hs, ls, ps, ss] =>
      match pyInt hs with
      | .error e => .error e
      | .ok h =>
          match pyInt ls with
          | .error e => .error e
          | .ok l =>
              match pyInt ps with
              | .error e => .error e
              | .ok p =>
                  match pyInt ss with
                  | .error e => .error e
                  | .ok s =>
                      .ok (.listField
                        [.labelFieldInt h, .labelFieldInt l,
                         .labelFieldInt p, .labelFieldInt s])
  | _ => .error .valueErrorUnpack

/-- `ScopusDatasetReader.text_to_instance` (`scopus_papers.py` lines
67-87): tokenizes title and abstract, builds the fields dict
`{title, abstract}` in that order, then adds the `labels` field produced by
the shared label mapping. `labels = none` models the omitted argument. -/
def scopus_text_to_instance (tok : String → List String)
    (title abstract : String) (labels : Option (List PyVal)) :
    Except PyError Inst :=
  match mapLabels labels with
  | .error e => .error e
  | .ok labelsField =>
      .ok [("title", .textField (tok title)),
           ("abstract", .textField (tok abstract)),
           ("labels", labelsField)]

/-- `ScopusAbstractDatasetReader.text_to_instance` (`scopus_papers.py`
lines 144-162): same as the title+abstract variant but the fields dict
holds only `abstract` before the shared label mapping adds `labels`; no
`title` field is ever inserted. -/
def scopusAbstract_text_to_instance (tok : String → List String)
    (abstract : String) (labels : Option (List PyVal)) :
    Except PyError Inst :=
  match mapLabels labels with
  | .error e => .error e
  | .ok labelsField =>
      .ok [("abstract", .textField (tok abstract)),
           ("labels", labelsField)]

/-- The row destructuring `abstract, _, title, *labels = row` of
`ScopusDatasetReader._read` (`scopus_papers.py` line 63): succeeds exactly
on rows with at least 3 cells, raising `ValueError` otherwise. Returns
`(abstract, title, labels)`. -/
def scopus_unpack_row (row : List String) :
    Except PyError (String × String × List String) :=
  match row with
  | abstract :: _ :: title :: labels => .ok (abstract, title, labels)
  | _ => .error .valueErrorUnpack

/-- The row destructuring `abstract, _, _, title, *labels = row` of
`ScopusAbstractDatasetReader._read` (`scopus_papers.py` line 140): needs at
least 4 cells; the `title` cell is bound but discarded by the caller.
Returns `(abstract, title, labels)`. -/
def scopusAbstract_unpack_row (row : List String) :
    Except PyError (String × String × List String) :=
  match row with
  | abstract :: _ :: _ :: title :: labels => .ok (abstract, title, labels)
  | _ => .error .valueErrorUnpack

/-- Processing of one CSV data row by `ScopusDatasetReader._read`
(`scopus_papers.py` lines 62-64): destructure the row, then `yield
self.text_to_instance(title, abstract, labels)`. An error anywhere
propagates and no Instance is yielded. -/
def scopus_read_row (tok : String → List String) (row : List String) :
    Except PyError Inst :=
  match scopus_unpack_row row with
  | .error e => .error e
  | .ok (abstract, title, labels) =>
      scopus_text_to_instance tok title abstract (some (labels.map .str))

/-- Processing of one CSV data row by `ScopusAbstractDatasetReader._read`
(`scopus_papers.py` lines 139-141): destructure the row, then `yield
self.text_to_instance(abstract, labels)` — the destructured title is
discarded. -/
def scopusAbstract_read_row (tok : String → List String)
    (row : List String) : Except PyError Inst :=
  match scopusAbstract_unpack_row row with
  | .error e => .error e
  | .ok (abstract, _title, labels) =>
      scopusAbstract_text_to_instance tok abstract (some (labels.map .str))

/-- `SemanticScholarDatasetReader.text_to_instance`
(`semantic_scholar_papers.py` lines 71-81): tokenizes title and abstract
into the fields dict `{title, abstract}`; only when `venue is not None` a
`label` field holding `LabelField(venue)` on the raw string is added. This
function cannot fail. -/
def s2_text_to_instance (tok : String → List String)
    (title abstract : String) (venue : Option String) : Inst :=
  let fields : Inst :=
    [("title", .textField (tok title)),
     ("abstract", .textField (tok abstract))]
  match venue with
  | none => fields
  | some v => fields ++ [("label", .labelFieldStr v)]

/-- The dataset readers the predictor's `_dataset_reader` may be configured
with: the three reader classes registered by this repository. -/
inductive ReaderKind where
  | scopus
  | scopusAbstract
  | s2
deriving DecidableEq

/-- Dict access `json_dict[k]`: the value for the first matching key, or a
`KeyError` naming `k`. A prediction request is modelled as an association
list of string fields. -/
def dictGet (d : List (String × String)) (k : String) :
    Except PyError String :=
  match d with
  | [] => .error (.keyError k)
  | (k2, v) :: rest => if k2 = k then .ok v else dictGet rest k

/-- The call `self._dataset_reader.text_to_instance(title=title,
abstract=abstract)` (`paper_classifier_predictor.py` line 17), resolved per
configured reader: `ScopusDatasetReader` accepts both keywords and leaves
`labels` at its `None` default; `SemanticScholarDatasetReader` accepts both
keywords and leaves `venue` at its `None` default;
`ScopusAbstractDatasetReader.text_to_instance(self, abstract, labels=None)`
has no `title` parameter, so the keyword call raises `TypeError`. -/
def reader_text_to_instance_kw (tok : String → List String)
    (k : ReaderKind) (title abstract : String) : Except PyError Inst :=
  match k with
  | .scopus => scopus_text_to_instance tok title abstract none
  | .scopusAbstract => .error .typeError
  | .s2 => .ok (s2_text_to_instance tok title abstract none)

/-- The hard-coded label-name list returned by the predictor
(`paper_classifier_predictor.py` line 21). -/
def canonicalLabelNames : List String :=
  ["health_sciences", "life_sciences", "physical_sciences",
   "social_sciences"]

/-- `PaperClassifierPredictor._json_to_instance`
(`paper_classifier_predictor.py` lines 13-21): reads `json_dict["title"]`
and `json_dict["abstract"]` (raising `KeyError` on a missing key), builds
the Instance through the configured reader's `text_to_instance`, computes
`label_dict` from the model vocabulary (line 19) but discards it, and
returns the Instance paired with the hard-coded label-name list. `vocab`
models `self._model.vocab.get_index_to_token_vocabulary("labels")`, which
cannot fail and whose value is unused. -/
def json_to_instance (tok : String → List String) (k : ReaderKind)
    (vocab : List (Nat × String)) (json_dict : List (String × String)) :
    Except PyError (Inst × List String) :=
  match dictGet json_dict "title" with
  | .error e => .error e
  | .ok title =>
      match dictGet json_dict "abstract" with
      | .error e => .error e
      | .ok abstract =>
          match reader_text_to_instance_kw tok k title abstract with
          | .error e => .error e
          | .ok inst =>
              let _label_dict := vocab
              .ok (inst, canonicalLabelNames)

/-- Success test for an embedded fallible computation. -/
def isOkE {α : Type} (e : Except PyError α) : Bool :=
  match e with
  | .ok _ => true
  | .error _ => false

/-- The `labels` field value built from four already-coerced integers:
`ListField` of four `LabelField(·, skip_indexing=True)` in the canonical
order (health_sciences, life_sciences, physical_sciences,
social_sciences). -/
def labelsFieldOf (h l p s : Int) : Field :=
  .listField [.labelFieldInt h, .labelFieldInt l,
              .labelFieldInt p, .labelFieldInt s]

end Papers

namespace Papers

example : pyInt (.str "1") = .ok 1 := rfl

example : pyInt (.str " -12 ") = .ok (-12) := rfl

example : pyInt (.str "a") = .error .valueErrorInt := rfl

example : pyInt (.str "") = .error .valueErrorInt := rfl

example : pyInt (.str "+") = .error .valueErrorInt := rfl

example :
    scopus_read_row (fun s => [s]) ["abs", "x", "ttl", "1", "0", "1", "0"] =
      .ok [("title", .textField ["ttl"]),
           ("abstract", .textField ["abs"]),
           ("labels", .listField
             [.labelFieldInt 1, .labelFieldInt 0,
              .labelFieldInt 1, .labelFieldInt 0])] := rfl

example :
    scopusAbstract_read_row (fun s => [s]) ["a", "b", "c"] =
      .error .valueErrorUnpack := rfl

example :
    json_to_instance (fun s => [s]) .scopus [] [("title", "t"), ("abstract", "a")] =
      .ok ([("title", .textField ["t"]),
            ("abstract", .textField ["a"]),
            ("labels", .listField
              [.labelFieldInt 0, .labelFieldInt 0,
               .labelFieldInt 0, .labelFieldInt 0])],
           canonicalLabelNames) := rfl

/-- Both falsy label arguments (`None` and the empty list) are replaced by
the default `[0, 0, 0, 0]`, which coerces to the all-zero labels field. -/
theorem mapLabels_falsy :
    mapLabels none = .ok (labelsFieldOf 0 0 0 0) ∧
    mapLabels (some []) = .ok (labelsFieldOf 0 0 0 0) :=
  ⟨rfl, rfl⟩

/-- On a four-value sequence whose members all coerce, the label mapping
returns the four coerced integers in input order. -/
theorem mapLabels_four (a b c d : PyVal) (ia ib ic id : Int)
    (ha : pyInt a = .ok ia) (hb : pyInt b = .ok ib)
    (hc : pyInt c = .ok ic) (hd : pyInt d = .ok id) :
    mapLabels (some [a, b, c, d]) = .ok (labelsFieldOf ia ib ic id) := by
  simp [mapLabels, ha, hb, hc, hd, labelsFieldOf]

/-- A nonempty label sequence whose length is not 4 fails the positional
destructuring. -/
theorem mapLabels_bad_len (vs : List PyVal) (h0 : vs ≠ [])
    (h4 : vs.length ≠ 4) :
    mapLabels (some vs) = .error .valueErrorUnpack := by
  rcases vs with _ | ⟨a, _ | ⟨b, _ | ⟨c, _ | ⟨d, _ | ⟨e, rest⟩⟩⟩⟩⟩
  · exact absurd rfl h0
  · rfl
  · rfl
  · rfl
  · exact absurd rfl h4
  · rfl

/-- The integer coercion can only fail with the coercion `ValueError`. -/
theorem pyInt_error_eq (v : PyVal) (e : PyError)
    (h : pyInt v = .error e) : e = .valueErrorInt := by
  cases v with
  | int i => simp [pyInt] at h
  | str s =>
      cases hp : pyIntOfString s with
      | some i => simp [pyInt, hp] at h
      | none =>
          simp [pyInt, hp] at h
          exact h.symm

/-- If any of the four values fails to coerce, the label mapping fails with
the coercion `ValueError`. -/
theorem mapLabels_coerce_err (a b c d : PyVal)
    (h : ¬(isOkE (pyInt a) = true ∧ isOkE (pyInt b) = true ∧
           isOkE (pyInt c) = true ∧ isOkE (pyInt d) = true)) :
    mapLabels (some [a, b, c, d]) = .error .valueErrorInt := by
  cases ea : pyInt a with
  | error e =>
      rcases pyInt_error_eq a e ea
      simp [mapLabels, ea]
  | ok ia =>
      cases eb : pyInt b with
      | error e =>
          rcases pyInt_error_eq b e eb
          simp [mapLabels, ea, eb]
      | ok ib =>
          cases ec : pyInt c with
          | error e =>
              rcases pyInt_error_eq c e ec
              simp [mapLabels, ea, eb, ec]
          | ok ic =>
              cases ed : pyInt d with
              | error e =>
                  rcases pyInt_error_eq d e ed
                  simp [mapLabels, ea, eb, ec, ed]
              | ok id =>
                  exact absurd ⟨by simp [isOkE, ea], by simp [isOkE, eb],
                    by simp [isOkE, ec], by simp [isOkE, ed]⟩ h

/-- Whenever the label mapping succeeds, the produced field is a
`ListField` of exactly four integer `LabelField`s. -/
theorem mapLabels_ok_shape (labels : Option (List PyVal)) (f : Field)
    (h : mapLabels labels = .ok f) :
    ∃ a b c d : Int, f = labelsFieldOf a b c d := by
  rcases labels with _ | vs
  · rw [mapLabels_falsy.1] at h
    injection h with h
    exact ⟨0, 0, 0, 0, h.symm⟩
  · by_cases hvs : vs = []
    · subst hvs
      rw [mapLabels_falsy.2] at h
      injection h with h
      exact ⟨0, 0, 0, 0, h.symm⟩
    · by_cases hlen : vs.length = 4
      · rcases vs with _ | ⟨a, _ | ⟨b, _ | ⟨c, _ | ⟨d, _ | ⟨e, rest⟩⟩⟩⟩⟩ <;>
          simp at hlen
        cases ea : pyInt a with
        | error e => simp [mapLabels, ea] at h
        | ok ia =>
            cases eb : pyInt b with
            | error e => simp [mapLabels, ea, eb] at h
            | ok ib =>
                cases ec : pyInt c with
                | error e => simp [mapLabels, ea, eb, ec] at h
                | ok ic =>
                    cases ed : pyInt d with
                    | error e => simp [mapLabels, ea, eb, ec, ed] at h
                    | ok id =>
                        refine ⟨ia, ib, ic, id, ?_⟩
                        have h4 := mapLabels_four a b c d ia ib ic id ea eb ec ed
                        rw [h4] at h
                        injection h with h
                        exact h.symm
      · rw [mapLabels_bad_len vs hvs hlen] at h
        exact absurd h (by simp)

/-- Unfolding lemma: a successful label mapping yields the three-field
Instance of the title+abstract reader. -/
theorem scopus_tti_of_ok (tok : String → List String)
    (title abstract : String) (labels : Option (List PyVal)) (f : Field)
    (h : mapLabels labels = .ok f) :
    scopus_text_to_instance tok title abstract labels =
      .ok [("title", .textField (tok title)),
           ("abstract", .textField (tok abstract)),
           ("labels", f)] := by
  unfold scopus_text_to_instance
  rw [h]

/-- Unfolding lemma: a failing label mapping propagates out of the
title+abstract reader's `text_to_instance`. -/
theorem scopus_tti_of_error (tok : String → List String)
    (title abstract : String) (labels : Option (List PyVal)) (e : PyError)
    (h : mapLabels labels = .error e) :
    scopus_text_to_instance tok title abstract labels = .error e := by
  unfold scopus_text_to_instance
  rw [h]

/-- Unfolding lemma: a successful label mapping yields the two-field
Instance of the abstract-only reader. -/
theorem scopusAbstract_tti_of_ok (tok : String → List String)
    (abstract : String) (labels : Option (List PyVal)) (f : Field)
    (h : mapLabels labels = .ok f) :
    scopusAbstract_text_to_instance tok abstract labels =
      .ok [("abstract", .textField (tok abstract)), ("labels", f)] := by
  unfold scopusAbstract_text_to_instance
  rw [h]

/-- Unfolding lemma: a failing label mapping propagates out of the
abstract-only reader's `text_to_instance`. -/
theorem scopusAbstract_tti_of_error (tok : String → List String)
    (abstract : String) (labels : Option (List PyVal)) (e : PyError)
    (h : mapLabels labels = .error e) :
    scopusAbstract_text_to_instance tok abstract labels = .error e := by
  unfold scopusAbstract_text_to_instance
  rw [h]

/-- Unfolding lemma: on a row of at least 3 cells the title+abstract
reader's row processing is `text_to_instance` on the destructured cells. -/
theorem scopus_read_row_cons (tok : String → List String)
    (c1 c2 c3 : String) (labels : List String) :
    scopus_read_row tok (c1 :: c2 :: c3 :: labels) =
      scopus_text_to_instance tok c3 c1 (some (labels.map .str)) := rfl

/-- Unfolding lemma: on a row of at least 4 cells the abstract-only
reader's row processing is `text_to_instance` on the destructured cells;
the fourth cell (the raw title) is discarded. -/
theorem scopusAbstract_read_row_cons (tok : String → List String)
    (c1 c2 c3 c4 : String) (labels : List String) :
    scopusAbstract_read_row tok (c1 :: c2 :: c3 :: c4 :: labels) =
      scopusAbstract_text_to_instance tok c1 (some (labels.map .str)) := rfl

/-- C1: for either CSV reader's `text_to_instance`, an omitted or empty
labels sequence produces the labels field `[0, 0, 0, 0]`, and a 4-value
labels sequence produces exactly the four input values coerced to
integers, in the fixed canonical order with no reordering. -/
theorem C1_label_mapping_identity (tok : String → List String)
    (title abstract : String) (a b c d : PyVal) (ia ib ic id : Int)
    (ha : pyInt a = .ok ia) (hb : pyInt b = .ok ib)
    (hc : pyInt c = .ok ic) (hd : pyInt d = .ok id) :
    (scopus_text_to_instance tok title abstract none =
      .ok [("title", .textField (tok title)),
           ("abstract", .textField (tok abstract)),
           ("labels", labelsFieldOf 0 0 0 0)]) ∧
    (scopus_text_to_instance tok title abstract (some []) =
      .ok [("title", .textField (tok title)),
           ("abstract", .textField (tok abstract)),
           ("labels", labelsFieldOf 0 0 0 0)]) ∧
    (scopusAbstract_text_to_instance tok abstract none =
      .ok [("abstract", .textField (tok abstract)),
           ("labels", labelsFieldOf 0 0 0 0)]) ∧
    (scopusAbstract_text_to_instance tok abstract (some []) =
      .ok [("abstract", .textField (tok abstract)),
           ("labels", labelsFieldOf 0 0 0 0)]) ∧
    (scopus_text_to_instance tok title abstract (some [a, b, c, d]) =
      .ok [("title", .textField (tok title)),
           ("abstract", .textField (tok abstract)),
           ("labels", labelsFieldOf ia ib ic id)]) ∧
    (scopusAbstract_text_to_instance tok abstract (some [a, b, c, d]) =
      .ok [("abstract", .textField (tok abstract)),
           ("labels", labelsFieldOf ia ib ic id)]) := by
  refine ⟨rfl, rfl, rfl, rfl, ?_, ?_⟩
  · exact scopus_tti_of_ok tok title abstract _ _
      (mapLabels_four a b c d ia ib ic id ha hb hc hd)
  · exact scopusAbstract_tti_of_ok tok abstract _ _
      (mapLabels_four a b c d ia ib ic id ha hb hc hd)

/-- Witness for C1 at a concrete row: labels `["1", "0", "1", "0"]` map to
the label vector `[1, 0, 1, 0]`. -/
theorem C1_label_mapping_identity_witness :
    scopus_text_to_instance (fun s => [s]) "t" "a"
        (some [.str "1", .str "0", .str "1", .str "0"]) =
      .ok [("title", .textField ["t"]), ("abstract", .textField ["a"]),
           ("labels", labelsFieldOf 1 0 1 0)] :=
  (C1_label_mapping_identity (fun s => [s]) "t" "a"
    (.str "1") (.str "0") (.str "1") (.str "0") 1 0 1 0
    rfl rfl rfl rfl).2.2.2.2.1

/-- C9: the label mapping of both readers performs no range validation: any
four integer-coercible values, also outside `{0, 1}`, are accepted and
their coerced values passed through unchanged into the label vector. -/
theorem C9_no_range_validation (tok : String → List String)
    (title abstract : String) (a b c d : PyVal) (ia ib ic id : Int)
    (ha : pyInt a = .ok ia) (hb : pyInt b = .ok ib)
    (hc : pyInt c = .ok ic) (hd : pyInt d = .ok id) :
    (scopus_text_to_instance tok title abstract (some [a, b, c, d]) =
      .ok [("title", .textField (tok title)),
           ("abstract", .textField (tok abstract)),
           ("labels", labelsFieldOf ia ib ic id)]) ∧
    (scopusAbstract_text_to_instance tok abstract (some [a, b, c, d]) =
      .ok [("abstract", .textField (tok abstract)),
           ("labels", labelsFieldOf ia ib ic id)]) :=
  ⟨scopus_tti_of_ok tok title abstract _ _
      (mapLabels_four a b c d ia ib ic id ha hb hc hd),
   scopusAbstract_tti_of_ok tok abstract _ _
      (mapLabels_four a b c d ia ib ic id ha hb hc hd)⟩

/-- Witness for C9 with values outside `{0, 1}`: labels
`["7", "-2", "0", "1"]` are accepted and passed through unchanged. -/
theorem C9_no_range_validation_witness :
    (scopus_text_to_instance (fun s => [s]) "t" "a"
        (some [.str "7", .str "-2", .str "0", .str "1"]) =
      .ok [("title", .textField ["t"]), ("abstract", .textField ["a"]),
           ("labels", labelsFieldOf 7 (-2) 0 1)]) ∧
    (7 : Int) ≠ 0 ∧ (7 : Int) ≠ 1 ∧ (-2 : Int) ≠ 0 ∧ (-2 : Int) ≠ 1 :=
  ⟨(C9_no_range_validation (fun s => [s]) "t" "a"
      (.str "7") (.str "-2") (.str "0") (.str "1") 7 (-2) 0 1
      rfl rfl rfl rfl).1,
   by decide, by decide, by decide, by decide⟩

/-- C5: in both readers the shared label mapping fails with the
destructuring `ValueError` (shape error) whenever the label sequence has a
length other than 0 or 4, and with the `int(...)` `ValueError` (type
error) whenever the sequence has length 4 but some value is not
integer-coercible; in both cases `text_to_instance` returns the error and
no Instance. -/
theorem C5_label_error_taxonomy (tok : String → List String)
    (title abstract : String) (vs : List PyVal) (a b c d : PyVal) :
    (vs ≠ [] → vs.length ≠ 4 →
      scopus_text_to_instance tok title abstract (some vs) =
        .error .valueErrorUnpack ∧
      scopusAbstract_text_to_instance tok abstract (some vs) =
        .error .valueErrorUnpack) ∧
    (¬(isOkE (pyInt a) = true ∧ isOkE (pyInt b) = true ∧
       isOkE (pyInt c) = true ∧ isOkE (pyInt d) = true) →
      scopus_text_to_instance tok title abstract (some [a, b, c, d]) =
        .error .valueErrorInt ∧
      scopusAbstract_text_to_instance tok abstract (some [a, b, c, d]) =
        .error .valueErrorInt) := by
  constructor
  · intro h0 h4
    exact ⟨scopus_tti_of_error tok title abstract _ _
        (mapLabels_bad_len vs h0 h4),
      scopusAbstract_tti_of_error tok abstract _ _
        (mapLabels_bad_len vs h0 h4)⟩
  · intro hbad
    exact ⟨scopus_tti_of_error tok title abstract _ _
        (mapLabels_coerce_err a b c d hbad),
      scopusAbstract_tti_of_error tok abstract _ _
        (mapLabels_coerce_err a b c d hbad)⟩

/-- Witness for C5: a length-2 sequence raises the shape error and a
non-numeric first value in a length-4 sequence raises the type error. -/
theorem C5_label_error_taxonomy_witness :
    (scopus_text_to_instance (fun s => [s]) "t" "a"
        (some [.str "1", .str "0"]) = .error .valueErrorUnpack ∧
     scopusAbstract_text_to_instance (fun s => [s]) "a"
        (some [.str "1", .str "0"]) = .error .valueErrorUnpack) ∧
    (scopus_text_to_instance (fun s => [s]) "t" "a"
        (some [.str "x", .str "0", .str "0", .str "0"]) =
          .error .valueErrorInt ∧
     scopusAbstract_text_to_instance (fun s => [s]) "a"
        (some [.str "x", .str "0", .str "0", .str "0"]) =
          .error .valueErrorInt) :=
  ⟨(C5_label_error_taxonomy (fun s => [s]) "t" "a"
      [.str "1", .str "0"] (.str "x") (.str "0") (.str "0") (.str "0")).1
      (by decide) (by decide),
   (C5_label_error_taxonomy (fun s => [s]) "t" "a"
      [.str "1", .str "0"] (.str "x") (.str "0") (.str "0") (.str "0")).2
      (by decide)⟩

/-- C4 counterexample: a CSV row carrying the label value `"2"` is
accepted by the title+abstract reader and produces a labels entry outside
`{0, 1}`, so not every produced entry is drawn from `{0, 1}`. -/
theorem C4_label_range_counterexample :
    scopus_read_row (fun s => [s]) ["abs", "x", "ttl", "2", "0", "0", "1"] =
      .ok [("title", .textField ["ttl"]), ("abstract", .textField ["abs"]),
           ("labels", labelsFieldOf 2 0 0 1)] ∧
    ¬((2 : Int) = 0 ∨ (2 : Int) = 1) :=
  ⟨rfl, by decide⟩

/-- C4 (amended): every Instance produced from a CSV row by either reader
has a labels field that is a ListField of exactly 4 integer LabelFields in
fixed order; the entries are the coerced inputs and lie in `{0, 1}` only
when the inputs do. -/
theorem C4_labels_field_shape (tok : String → List String)
    (row : List String) (inst : Inst) :
    (scopus_read_row tok row = .ok inst →
      ∃ a b c d : Int, getField inst "labels" =
        some (labelsFieldOf a b c d)) ∧
    (scopusAbstract_read_row tok row = .ok inst →
      ∃ a b c d : Int, getField inst "labels" =
        some (labelsFieldOf a b c d)) := by
  constructor
  · intro h
    rcases row with _ | ⟨c1, _ | ⟨c2, _ | ⟨c3, labels⟩⟩⟩
    · simp [scopus_read_row, scopus_unpack_row] at h
    · simp [scopus_read_row, scopus_unpack_row] at h
    · simp [scopus_read_row, scopus_unpack_row] at h
    · rw [scopus_read_row_cons] at h
      cases hm : mapLabels (some (labels.map .str)) with
      | error e =>
          rw [scopus_tti_of_error tok c3 c1 _ _ hm] at h
          exact absurd h (by simp)
      | ok f =>
          rw [scopus_tti_of_ok tok c3 c1 _ _ hm] at h
          injection h with h
          obtain ⟨a, b, c, d, rfl⟩ := mapLabels_ok_shape _ _ hm
          exact ⟨a, b, c, d, by rw [← h]; rfl⟩
  · intro h
    rcases row with _ | ⟨c1, _ | ⟨c2, _ | ⟨c3, _ | ⟨c4, labels⟩⟩⟩⟩
    · simp [scopusAbstract_read_row, scopusAbstract_unpack_row] at h
    · simp [scopusAbstract_read_row, scopusAbstract_unpack_row] at h
    · simp [scopusAbstract_read_row, scopusAbstract_unpack_row] at h
    · simp [scopusAbstract_read_row, scopusAbstract_unpack_row] at h
    · rw [scopusAbstract_read_row_cons] at h
      cases hm : mapLabels (some (labels.map .str)) with
      | error e =>
          rw [scopusAbstract_tti_of_error tok c1 _ _ hm] at h
          exact absurd h (by simp)
      | ok f =>
          rw [scopusAbstract_tti_of_ok tok c1 _ _ hm] at h
          injection h with h
          obtain ⟨a, b, c, d, rfl⟩ := mapLabels_ok_shape _ _ hm
          exact ⟨a, b, c, d, by rw [← h]; rfl⟩

/-- Witness for C4 on a valid concrete row for each reader. -/
theorem C4_labels_field_shape_witness :
    (∃ a b c d : Int,
      getField [("title", Field.textField ["ttl"]),
                ("abstract", Field.textField ["abs"]),
                ("labels", labelsFieldOf 1 0 1 0)] "labels" =
        some (labelsFieldOf a b c d)) ∧
    (∃ a b c d : Int,
      getField [("abstract", Field.textField ["abs"]),
                ("labels", labelsFieldOf 1 0 1 0)] "labels" =
        some (labelsFieldOf a b c d)) :=
  ⟨(C4_labels_field_shape (fun s => [s])
      ["abs", "x", "ttl", "1", "0", "1", "0"] _).1 rfl,
   (C4_labels_field_shape (fun s => [s])
      ["abs", "x", "ttl2", "ttl", "1", "0", "1", "0"] _).2 rfl⟩

/-- C3 counterexample: a 3-column row passes the title+abstract reader's
destructuring but fails the abstract-only reader's destructuring (which
unpacks 4 leading cells), so malformedness on column count is not "fewer
than 3 columns" for both variants. -/
theorem C3_three_column_row_counterexample :
    scopusAbstract_unpack_row ["a", "b", "c"] = .error .valueErrorUnpack ∧
    scopusAbstract_read_row (fun s => [s]) ["a", "b", "c"] =
      .error .valueErrorUnpack ∧
    isOkE (scopus_unpack_row ["a", "b", "c"]) = true ∧
    List.length ["a", "b", "c"] = 3 :=
  ⟨rfl, rfl, rfl, rfl⟩

/-- C3 (amended): the title+abstract reader's row destructuring succeeds
exactly on rows with at least 3 columns and the abstract-only reader's
exactly on rows with at least 4; a shorter row makes the row processing
raise the destructuring `ValueError` immediately, yielding no Instance. -/
theorem C3_row_arity (tok : String → List String) (row : List String) :
    (isOkE (scopus_unpack_row row) = true ↔ 3 ≤ row.length) ∧
    (isOkE (scopusAbstract_unpack_row row) = true ↔ 4 ≤ row.length) ∧
    (row.length < 3 →
      scopus_read_row tok row = .error .valueErrorUnpack) ∧
    (row.length < 4 →
      scopusAbstract_read_row tok row = .error .valueErrorUnpack) := by
  rcases row with _ | ⟨r1, _ | ⟨r2, _ | ⟨r3, _ | ⟨r4, rest⟩⟩⟩⟩ <;>
    refine ⟨?_, ?_, ?_, ?_⟩ <;>
    simp [scopus_unpack_row, scopusAbstract_unpack_row, scopus_read_row,
      scopusAbstract_read_row, isOkE]

/-- Witness for C3 at concrete short rows. -/
theorem C3_row_arity_witness :
    scopus_read_row (fun s => [s]) ["a", "b"] = .error .valueErrorUnpack ∧
    scopusAbstract_read_row (fun s => [s]) ["a", "b", "c"] =
      .error .valueErrorUnpack :=
  ⟨(C3_row_arity (fun s => [s]) ["a", "b"]).2.2.1 (by decide),
   (C3_row_arity (fun s => [s]) ["a", "b", "c"]).2.2.2 (by decide)⟩

/-- C6: every Instance the abstract-only reader produces from a row has
exactly the fields `abstract` and `labels`, in that order, and in
particular never a `title` field, although the raw title cell is present
in any successfully destructured row. -/
theorem C6_abstract_reader_omits_title (tok : String → List String)
    (row : List String) (inst : Inst)
    (h : scopusAbstract_read_row tok row = .ok inst) :
    fieldNames inst = ["abstract", "labels"] ∧
    hasField inst "title" = false := by
  rcases row with _ | ⟨c1, _ | ⟨c2, _ | ⟨c3, _ | ⟨c4, labels⟩⟩⟩⟩
  · simp [scopusAbstract_read_row, scopusAbstract_unpack_row] at h
  · simp [scopusAbstract_read_row, scopusAbstract_unpack_row] at h
  · simp [scopusAbstract_read_row, scopusAbstract_unpack_row] at h
  · simp [scopusAbstract_read_row, scopusAbstract_unpack_row] at h
  · rw [scopusAbstract_read_row_cons] at h
    cases hm : mapLabels (some (labels.map .str)) with
    | error e =>
        rw [scopusAbstract_tti_of_error tok c1 _ _ hm] at h
        exact absurd h (by simp)
    | ok f =>
        rw [scopusAbstract_tti_of_ok tok c1 _ _ hm] at h
        injection h with h
        exact ⟨by rw [← h]; rfl, by rw [← h]; rfl⟩

/-- Witness for C6 at a concrete 8-column row. -/
theorem C6_abstract_reader_omits_title_witness :
    fieldNames [("abstract", Field.textField ["abs"]),
                ("labels", labelsFieldOf 1 0 1 0)] =
      ["abstract", "labels"] ∧
    hasField [("abstract", Field.textField ["abs"]),
              ("labels", labelsFieldOf 1 0 1 0)] "title" = false :=
  C6_abstract_reader_omits_title (fun s => [s])
    ["abs", "x", "y", "ttl", "1", "0", "1", "0"] _ rfl

/-- Dict access on an absent key raises `KeyError` for that key. -/
theorem dictGet_of_not_mem (d : List (String × String)) (k : String)
    (h : k ∉ d.map Prod.fst) : dictGet d k = .error (.keyError k) := by
  induction d with
  | nil => rfl
  | cons hd tl ih =>
      obtain ⟨k2, v⟩ := hd
      simp only [List.map_cons, List.mem_cons, not_or] at h
      obtain ⟨h1, h2⟩ := h
      unfold dictGet
      rw [if_neg (fun hk => h1 hk.symm)]
      exact ih h2

/-- Dict access on a present key returns some value. -/
theorem dictGet_of_mem (d : List (String × String)) (k : String)
    (h : k ∈ d.map Prod.fst) : ∃ v, dictGet d k = .ok v := by
  induction d with
  | nil => simp at h
  | cons hd tl ih =>
      obtain ⟨k2, v⟩ := hd
      by_cases hk : k2 = k
      · exact ⟨v, by simp [dictGet, hk]⟩
      · simp only [List.map_cons, List.mem_cons] at h
        rcases h with h | h
        · exact absurd h.symm hk
        · obtain ⟨w, hw⟩ := ih h
          exact ⟨w, by simp [dictGet, hk, hw]⟩

/-- Dict access fails only with the `KeyError` of the requested key. -/
theorem dictGet_error_eq (d : List (String × String)) (k : String)
    (e : PyError) (h : dictGet d k = .error e) : e = .keyError k := by
  induction d with
  | nil =>
      unfold dictGet at h
      injection h with h
      exact h.symm
  | cons hd tl ih =>
      obtain ⟨k2, v⟩ := hd
      by_cases hk : k2 = k
      · simp [dictGet, hk] at h
      · simp only [dictGet, if_neg hk] at h
        exact ih h

/-- Unfolding lemma: with both request keys present, the predictor's
adapter is the configured reader's keyword call followed by the pairing
with the hard-coded label names. -/
theorem json_to_instance_ok_keys (tok : String → List String)
    (k : ReaderKind) (vocab : List (Nat × String))
    (d : List (String × String)) (t a : String)
    (ht : dictGet d "title" = .ok t) (ha : dictGet d "abstract" = .ok a) :
    json_to_instance tok k vocab d =
      match reader_text_to_instance_kw tok k t a with
      | .error e => .error e
      | .ok inst => .ok (inst, canonicalLabelNames) := by
  unfold json_to_instance
  rw [ht, ha]

/-- Unfolding lemma: a missing `title` key aborts the adapter with its
`KeyError`. -/
theorem json_to_instance_missing_title (tok : String → List String)
    (k : ReaderKind) (vocab : List (Nat × String))
    (d : List (String × String))
    (ht : dictGet d "title" = .error (.keyError "title")) :
    json_to_instance tok k vocab d = .error (.keyError "title") := by
  unfold json_to_instance
  rw [ht]

/-- Unfolding lemma: a missing `abstract` key (with `title` present) aborts
the adapter with its `KeyError`. -/
theorem json_to_instance_missing_abstract (tok : String → List String)
    (k : ReaderKind) (vocab : List (Nat × String))
    (d : List (String × String)) (t : String)
    (ht : dictGet d "title" = .ok t)
    (ha : dictGet d "abstract" = .error (.keyError "abstract")) :
    json_to_instance tok k vocab d = .error (.keyError "abstract") := by
  unfold json_to_instance
  rw [ht, ha]

/-- The keyword call into a configured reader fails only with the
`TypeError` of the abstract-only reader's missing `title` parameter. -/
theorem reader_kw_error_eq (tok : String → List String) (k : ReaderKind)
    (t a : String) (e : PyError)
    (h : reader_text_to_instance_kw tok k t a = .error e) :
    e = .typeError := by
  cases k with
  | scopus =>
      unfold reader_text_to_instance_kw at h
      rw [scopus_tti_of_ok tok t a none _ mapLabels_falsy.1] at h
      exact absurd h (by simp)
  | scopusAbstract =>
      unfold reader_text_to_instance_kw at h
      injection h with h
      exact h.symm
  | s2 =>
      unfold reader_text_to_instance_kw at h
      exact absurd h (by simp)

/-- C2 counterexample: configured with the title+abstract CSV reader, the
prediction adapter produces an Instance that does contain a `labels` field
(the default `[0, 0, 0, 0]`), contradicting that the produced Example
contains no `labels` field for every configurable reader. -/
theorem C2_predictor_labels_field_counterexample :
    json_to_instance (fun s => [s]) .scopus []
        [("title", "t"), ("abstract", "a")] =
      .ok ([("title", .textField ["t"]), ("abstract", .textField ["a"]),
            ("labels", labelsFieldOf 0 0 0 0)], canonicalLabelNames) ∧
    hasField [("title", Field.textField ["t"]),
              ("abstract", Field.textField ["a"]),
              ("labels", labelsFieldOf 0 0 0 0)] "labels" = true :=
  ⟨rfl, rfl⟩

/-- C2 (amended): on a request with `title` and `abstract` present the
adapter yields tokenized `title`/`abstract` fields and never a `label`
field; with the database-backed reader there is no `labels` field either,
with the title+abstract CSV reader a `labels` field equal to
`[0, 0, 0, 0]` is present, and with the abstract-only CSV reader the call
raises `TypeError` instead of producing an Example. -/
theorem C2_predictor_instance_fields (tok : String → List String)
    (vocab : List (Nat × String)) (d : List (String × String))
    (t a : String)
    (ht : dictGet d "title" = .ok t) (ha : dictGet d "abstract" = .ok a) :
    (json_to_instance tok .s2 vocab d =
      .ok ([("title", .textField (tok t)),
            ("abstract", .textField (tok a))], canonicalLabelNames)) ∧
    hasField [("title", Field.textField (tok t)),
              ("abstract", Field.textField (tok a))] "label" = false ∧
    hasField [("title", Field.textField (tok t)),
              ("abstract", Field.textField (tok a))] "labels" = false ∧
    (json_to_instance tok .scopus vocab d =
      .ok ([("title", .textField (tok t)),
            ("abstract", .textField (tok a)),
            ("labels", labelsFieldOf 0 0 0 0)], canonicalLabelNames)) ∧
    hasField [("title", Field.textField (tok t)),
              ("abstract", Field.textField (tok a)),
              ("labels", labelsFieldOf 0 0 0 0)] "label" = false ∧
    hasField [("title", Field.textField (tok t)),
              ("abstract", Field.textField (tok a)),
              ("labels", labelsFieldOf 0 0 0 0)] "labels" = true ∧
    (json_to_instance tok .scopusAbstract vocab d =
      .error .typeError) := by
  refine ⟨?_, rfl, rfl, ?_, rfl, rfl, ?_⟩
  · rw [json_to_instance_ok_keys tok .s2 vocab d t a ht ha]
    rfl
  · rw [json_to_instance_ok_keys tok .scopus vocab d t a ht ha]
    rw [show reader_text_to_instance_kw tok .scopus t a =
      .ok [("title", .textField (tok t)), ("abstract", .textField (tok a)),
           ("labels", labelsFieldOf 0 0 0 0)] from
      scopus_tti_of_ok tok t a none _ mapLabels_falsy.1]
  · rw [json_to_instance_ok_keys tok .scopusAbstract vocab d t a ht ha]
    rfl

/-- Witness for C2 at a concrete request for the database-backed reader. -/
theorem C2_predictor_instance_fields_witness :
    json_to_instance (fun s => [s]) .s2 []
        [("title", "t"), ("abstract", "a")] =
      .ok ([("title", .textField ["t"]), ("abstract", .textField ["a"])],
           canonicalLabelNames) :=
  (C2_predictor_instance_fields (fun s => [s]) []
    [("title", "t"), ("abstract", "a")] "t" "a" rfl rfl).1

/-- C7: whenever the prediction adapter returns, the accompanying
label-name list is exactly the hard-coded canonical four, for every
configured reader and request, and the whole adapter output is independent
of the model vocabulary. -/
theorem C7_fixed_label_names (tok : String → List String) (k : ReaderKind)
    (vocab vocab2 : List (Nat × String)) (d : List (String × String)) :
    (∀ inst names, json_to_instance tok k vocab d = .ok (inst, names) →
      names = ["health_sciences", "life_sciences", "physical_sciences",
               "social_sciences"]) ∧
    json_to_instance tok k vocab d = json_to_instance tok k vocab2 d := by
  constructor
  · intro inst names h
    cases h1 : dictGet d "title" with
    | error e =>
        rcases dictGet_error_eq d "title" e h1
        rw [json_to_instance_missing_title tok k vocab d h1] at h
        exact absurd h (by simp)
    | ok t =>
        cases h2 : dictGet d "abstract" with
        | error e =>
            rcases dictGet_error_eq d "abstract" e h2
            rw [json_to_instance_missing_abstract tok k vocab d t h1 h2] at h
            exact absurd h (by simp)
        | ok a =>
            rw [json_to_instance_ok_keys tok k vocab d t a h1 h2] at h
            cases h3 : reader_text_to_instance_kw tok k t a with
            | error e =>
                rw [h3] at h
                exact absurd h (by simp)
            | ok i =>
                rw [h3] at h
                injection h with h
                injection h with hi hn
                subst hn
                rfl
  · rfl

/-- Witness for C7 at a concrete request and two different vocabularies. -/
theorem C7_fixed_label_names_witness :
    json_to_instance (fun s => [s]) .s2 []
        [("title", "t"), ("abstract", "a")] =
      .ok ([("title", .textField ["t"]), ("abstract", .textField ["a"])],
           canonicalLabelNames) ∧
    canonicalLabelNames =
      ["health_sciences", "life_sciences", "physical_sciences",
       "social_sciences"] :=
  ⟨rfl, (C7_fixed_label_names (fun s => [s]) .s2 [] [(0, "ACL")]
    [("title", "t"), ("abstract", "a")]).1
    [("title", .textField ["t"]), ("abstract", .textField ["a"])]
    canonicalLabelNames rfl⟩

/-- C8: the prediction adapter raises a `KeyError`, propagated to the
caller, exactly when the request lacks the key `title` or the key
`abstract`; a missing `title` raises `KeyError` for `title`, a present
`title` with missing `abstract` raises `KeyError` for `abstract`, and with
both present no `KeyError` is ever raised. -/
theorem C8_key_error_iff (tok : String → List String) (k : ReaderKind)
    (vocab : List (Nat × String)) (d : List (String × String)) :
    ((∃ key, json_to_instance tok k vocab d = .error (.keyError key)) ↔
      ("title" ∉ d.map Prod.fst ∨ "abstract" ∉ d.map Prod.fst)) ∧
    ("title" ∉ d.map Prod.fst →
      json_to_instance tok k vocab d = .error (.keyError "title")) ∧
    ("title" ∈ d.map Prod.fst → "abstract" ∉ d.map Prod.fst →
      json_to_instance tok k vocab d = .error (.keyError "abstract")) := by
  have hT : "title" ∉ d.map Prod.fst →
      json_to_instance tok k vocab d = .error (.keyError "title") :=
    fun h => json_to_instance_missing_title tok k vocab d
      (dictGet_of_not_mem d "title" h)
  have hA : "title" ∈ d.map Prod.fst → "abstract" ∉ d.map Prod.fst →
      json_to_instance tok k vocab d = .error (.keyError "abstract") := by
    intro h1 h2
    obtain ⟨t, ht⟩ := dictGet_of_mem d "title" h1
    exact json_to_instance_missing_abstract tok k vocab d t ht
      (dictGet_of_not_mem d "abstract" h2)
  refine ⟨⟨?_, ?_⟩, hT, hA⟩
  · rintro ⟨key, hkey⟩
    by_contra hno
    push_neg at hno
    obtain ⟨hmemT, hmemA⟩ := hno
    obtain ⟨t, ht⟩ := dictGet_of_mem d "title" hmemT
    obtain ⟨a, ha⟩ := dictGet_of_mem d "abstract" hmemA
    rw [json_to_instance_ok_keys tok k vocab d t a ht ha] at hkey
    cases h3 : reader_text_to_instance_kw tok k t a with
    | error e =>
        rcases reader_kw_error_eq tok k t a e h3
        rw [h3] at hkey
        exact absurd hkey (by simp)
    | ok i =>
        rw [h3] at hkey
        exact absurd hkey (by simp)
  · rintro (h | h)
    · exact ⟨"title", hT h⟩
    · by_cases h1 : "title" ∈ d.map Prod.fst
      · exact ⟨"abstract", hA h1 h⟩
      · exact ⟨"title", hT h1⟩

/-- Witness for C8 at concrete requests missing each key. -/
theorem C8_key_error_iff_witness :
    json_to_instance (fun s => [s]) .scopus [] [("abstract", "a")] =
      .error (.keyError "title") ∧
    json_to_instance (fun s => [s]) .scopus [] [("title", "t")] =
      .error (.keyError "abstract") :=
  ⟨(C8_key_error_iff (fun s => [s]) .scopus [] [("abstract", "a")]).2.1
      (by decide),
   (C8_key_error_iff (fun s => [s]) .scopus [] [("title", "t")]).2.2
      (by decide) (by decide)⟩

/-- C10: the database-backed reader's `text_to_instance` yields only the
`title` and `abstract` fields when the venue is omitted, and adds a
`label` field holding the raw venue string when a venue is supplied. -/
theorem C10_s2_venue_label (tok : String → List String)
    (title abstract venue : String) :
    (s2_text_to_instance tok title abstract none =
      [("title", .textField (tok title)),
       ("abstract", .textField (tok abstract))]) ∧
    hasField (s2_text_to_instance tok title abstract none) "label" =
      false ∧
    hasField (s2_text_to_instance tok title abstract none) "labels" =
      false ∧
    (s2_text_to_instance tok title abstract (some venue) =
      [("title", .textField (tok title)),
       ("abstract", .textField (tok abstract)),
       ("label", .labelFieldStr venue)]) ∧
    getField (s2_text_to_instance tok title abstract (some venue))
        "label" = some (.labelFieldStr venue) :=
  ⟨rfl, rfl, rfl, rfl, rfl⟩

end Papers
